import Mathlib

/-!
Shallow embedding of the WeatherAPP backend.

Sources embedded:
- `src/models.py`   : the `Location` and `WeatherSnapshot` SQLModel tables.
- `src/weather_api.py` : the provider client (`search_cities`, `get_coordinates`,
  `get_current_weather`, `get_forecast`).  Each HTTP round trip is modelled as a
  function from the request parameters the code sends to an `UpstreamResult`:
  `.failure` stands for any network error, non-success status or undecodable body
  (everything `raise_for_status` / `response.json()` can throw), and `.success`
  carries the decoded JSON, with every field the code indexes modelled as
  present-or-absent (`Option`), since a missing key raises `KeyError` inside the
  `try` block.  The Lean functions are total: the `except Exception` wrapper in
  the source means no exception escapes to the caller, which the embedding
  renders as totality.
- `src/main.py`     : the FastAPI handlers, modelled as explicit state passing
  over a `DB` value (the two SQLite tables plus the autoincrement counters).
  A handler returns `Except HTTPException result × DB`: the `DB` component is
  the persistent state after the request, also on the error paths (a raised
  `HTTPException` does not undo writes already committed).

Numeric modelling: the Python floats (coordinates, temperatures, wind speed)
are only stored and compared for equality, never computed with, so they are
embedded as `Rat`.  `datetime` values are only stored, so they are embedded as
`Nat` ticks; `datetime.utcnow()` is the `now` field of the request environment.
-/

/-- Raw outcome of one HTTP round trip to the provider: `failure` is any
exception raised up to and including `response.json()` (network error,
non-2xx status, undecodable body); `success` carries the decoded payload. -/
inductive UpstreamResult (α : Type) where
  | failure : UpstreamResult α
  | success : α → UpstreamResult α
deriving DecidableEq

/-- Query parameters sent to the geocoding endpoint (`q`, `limit`; the API key
is not behaviour-relevant). -/
structure GeoRequest where
  q : String
  limit : Nat
deriving DecidableEq

/-- One decoded item of the geocoding response.  `name`, `country`, `lat`,
`lon` are read with `item[...]` (a missing key raises `KeyError`), `state`
with `item.get("state", "")`. -/
structure GeoItem where
  name : Option String
  country : Option String
  state : Option String
  lat : Option Rat
  lon : Option Rat
deriving DecidableEq

/-- A fully populated candidate match returned by `search_cities`
(`{name, country, state, lat, lon}`). -/
structure CityMatch where
  name : String
  country : String
  state : String
  lat : Rat
  lon : Rat
deriving DecidableEq

/-- The dict `get_coordinates` returns on success
(`{lat, lon, name, country}`). -/
structure GeoData where
  lat : Rat
  lon : Rat
  name : String
  country : String
deriving DecidableEq

/-- The dict `get_current_weather` returns on success. -/
structure WeatherData where
  temp : Rat
  description : String
  icon : String
  humidity : Int
  wind_speed : Rat
  feels_like : Rat
deriving DecidableEq

/-- Decoded `"main"` object of a current-weather / forecast payload; each key
the code indexes may be absent. -/
structure WeatherMain where
  temp : Option Rat
  humidity : Option Int
  feels_like : Option Rat
deriving DecidableEq

/-- Decoded element of the `"weather"` array. -/
structure WeatherCondition where
  description : Option String
  icon : Option String
deriving DecidableEq

/-- Decoded `"wind"` object. -/
structure WindInfo where
  speed : Option Rat
deriving DecidableEq

/-- Decoded current-weather payload: the `"main"` and `"wind"` keys may be
absent, and `data["weather"][0]` raises when the array is empty. -/
structure CurrentWeatherPayload where
  main : Option WeatherMain
  weather : List WeatherCondition
  wind : Option WindInfo
deriving DecidableEq

/-- Query parameters sent to the weather endpoints (`lat`, `lon`, `units`). -/
structure WeatherRequest where
  lat : Rat
  lon : Rat
  units : String
deriving DecidableEq

/-- Decoded element of the forecast `"list"` array. -/
structure ForecastItemPayload where
  main : Option WeatherMain
  weather : List WeatherCondition
  dt : Option Nat
deriving DecidableEq

/-- Decoded forecast payload: the `"list"` key itself may be absent. -/
structure ForecastPayload where
  list : Option (List ForecastItemPayload)
deriving DecidableEq

/-- One fully populated forecast entry (`{temp, description, icon, timestamp}`). -/
structure ForecastEntry where
  temp : Rat
  description : String
  icon : String
  timestamp : Nat
deriving DecidableEq

namespace weather_api

/-- Build one result dict of `search_cities` from a raw geocoding item; `none`
models the `KeyError` raised when `name`, `country`, `lat` or `lon` is missing
(`state` defaults to `""` via `.get`). -/
def parseCityMatch (item : GeoItem) : Option CityMatch :=
  match item.name, item.country, item.lat, item.lon with
  | some n, some c, some la, some lo =>
      some { name := n, country := c, state := item.state.getD "", lat := la, lon := lo }
  | _, _, _, _ => none

/-- Run `parseCityMatch` over the whole response array.  All-or-nothing: a
`KeyError` on any item aborts the loop, so no partial list is ever produced. -/
def parseCityMatches : List GeoItem → Option (List CityMatch)
  | [] => some []
  | item :: rest =>
    match parseCityMatch item, parseCityMatches rest with
    | some c, some cs => some (c :: cs)
    | _, _ => none

/-- `weather_api.search_cities`, given the decoded response: any upstream
failure or any malformed item yields `[]`. -/
def search_cities_resp (resp : UpstreamResult (List GeoItem)) : List CityMatch :=
  match resp with
  | .failure => []
  | .success data =>
    match parseCityMatches data with
    | some results => results
    | none => []

/-- `weather_api.search_cities(query)`: one GET on `/geo/1.0/direct` with
`q = query`, `limit = 5`. -/
def search_cities (provider : GeoRequest → UpstreamResult (List GeoItem))
    (query : String) : List CityMatch :=
  search_cities_resp (provider { q := query, limit := 5 })

/-- Build the result of `get_coordinates` from the decoded response: `none`
for an empty array (`if data:` falsy) or a missing key on `data[0]`. -/
def parseCoordinates (data : List GeoItem) : Option GeoData :=
  match data with
  | [] => none
  | item :: _ =>
    match item.lat, item.lon, item.name, item.country with
    | some la, some lo, some n, some c =>
        some { lat := la, lon := lo, name := n, country := c }
    | _, _, _, _ => none

/-- `weather_api.get_coordinates`, given the decoded response. -/
def get_coordinates_resp (resp : UpstreamResult (List GeoItem)) : Option GeoData :=
  match resp with
  | .failure => none
  | .success data => parseCoordinates data

/-- `weather_api.get_coordinates(city_name)`: one GET on `/geo/1.0/direct`
with `q = city_name`, `limit = 1`. -/
def get_coordinates (provider : GeoRequest → UpstreamResult (List GeoItem))
    (city_name : String) : Option GeoData :=
  get_coordinates_resp (provider { q := city_name, limit := 1 })

/-- Build the result dict of `get_current_weather` from the decoded payload.
The dict literal in the source is built atomically: any missing key or an
empty `"weather"` array raises, so the result is all-or-nothing. -/
def parseCurrentWeather (p : CurrentWeatherPayload) : Option WeatherData :=
  match p.main, p.weather, p.wind with
  | some m, w0 :: _, some wd =>
    match m.temp, w0.description, w0.icon, m.humidity, wd.speed, m.feels_like with
    | some t, some d, some i, some h, some s, some f =>
        some { temp := t, description := d, icon := i,
               humidity := h, wind_speed := s, feels_like := f }
    | _, _, _, _, _, _ => none
  | _, _, _ => none

/-- `weather_api.get_current_weather`, given the decoded response. -/
def get_current_weather_resp (resp : UpstreamResult CurrentWeatherPayload) :
    Option WeatherData :=
  match resp with
  | .failure => none
  | .success data => parseCurrentWeather data

/-- `weather_api.get_current_weather(lat, lon, units)` (the source defaults
`units` to `"metric"`): one GET on `/data/2.5/weather`. -/
def get_current_weather (provider : WeatherRequest → UpstreamResult CurrentWeatherPayload)
    (lat lon : Rat) (units : String) : Option WeatherData :=
  get_current_weather_resp (provider { lat := lat, lon := lon, units := units })

/-- Build one forecast entry from a raw `"list"` item; `none` models the
exception raised on a missing key or an empty `"weather"` array. -/
def parseForecastItem (it : ForecastItemPayload) : Option ForecastEntry :=
  match it.main, it.weather, it.dt with
  | some m, w0 :: _, some ts =>
    match m.temp, w0.description, w0.icon with
    | some t, some d, some i =>
        some { temp := t, description := d, icon := i, timestamp := ts }
    | _, _, _ => none
  | _, _, _ => none

/-- Run `parseForecastItem` over the whole `"list"` array; all-or-nothing as
in `parseCityMatches`. -/
def parseForecastItems : List ForecastItemPayload → Option (List ForecastEntry)
  | [] => some []
  | it :: rest =>
    match parseForecastItem it, parseForecastItems rest with
    | some e, some es => some (e :: es)
    | _, _ => none

/-- `weather_api.get_forecast`, given the decoded response: any upstream
failure, a missing `"list"` key, or any malformed item yields `[]`. -/
def get_forecast_resp (resp : UpstreamResult ForecastPayload) : List ForecastEntry :=
  match resp with
  | .failure => []
  | .success data =>
    match data.list with
    | none => []
    | some items =>
      match parseForecastItems items with
      | some entries => entries
      | none => []

/-- `weather_api.get_forecast(lat, lon, units)` (the source defaults `units`
to `"metric"`): one GET on `/data/2.5/forecast`. -/
def get_forecast (provider : WeatherRequest → UpstreamResult ForecastPayload)
    (lat lon : Rat) (units : String) : List ForecastEntry :=
  get_forecast_resp (provider { lat := lat, lon := lon, units := units })

end weather_api

/-- `models.Location`: a tracked city (one row of the `location` table).
`id` is the autoincrement primary key; `last_synced` is nullable. -/
structure Location where
  id : Nat
  name : String
  country : String
  lat : Rat
  lon : Rat
  display_name : Option String
  is_favorite : Bool
  last_synced : Option Nat
deriving DecidableEq

/-- `models.WeatherSnapshot`: one row of the `weathersnapshot` table.
`location_id` is a foreign key into `location`. -/
structure WeatherSnapshot where
  id : Nat
  location_id : Nat
  temp : Rat
  description : String
  icon : String
  humidity : Int
  wind_speed : Rat
  feels_like : Rat
  timestamp : Nat
deriving DecidableEq

/-- The SQLite database: the two tables in rowid order, plus the next value
of each autoincrement primary key. -/
structure DB where
  locations : List Location
  snapshots : List WeatherSnapshot
  nextLocId : Nat
  nextSnapId : Nat
deriving DecidableEq

/-- `session.get(Location, location_id)`: primary-key lookup. -/
def DB.getLocation (db : DB) (location_id : Nat) : Option Location :=
  db.locations.find? (fun l => l.id == location_id)

/-- `session.get(WeatherSnapshot, snapshot_id)`: primary-key lookup. -/
def DB.getSnapshot (db : DB) (snapshot_id : Nat) : Option WeatherSnapshot :=
  db.snapshots.find? (fun s => s.id == snapshot_id)

/-- `select(Location).where(lat == ..., lon == ...).first()`: the dedupe
lookup of `create_location`. -/
def DB.findLocationByCoords (db : DB) (lat lon : Rat) : Option Location :=
  db.locations.find? (fun l => l.lat == lat && l.lon == lon)

/-- Well-formedness the SQLite schema enforces: primary keys are unique and
below the autoincrement counter in both tables, and every snapshot's
`location_id` foreign key references an existing location. -/
def DB.WF (db : DB) : Prop :=
  db.locations.Pairwise (fun a b => a.id ≠ b.id) ∧
  db.snapshots.Pairwise (fun a b => a.id ≠ b.id) ∧
  (∀ l ∈ db.locations, l.id < db.nextLocId) ∧
  (∀ s ∈ db.snapshots, s.id < db.nextSnapId) ∧
  (∀ s ∈ db.snapshots, s.location_id ∈ db.locations.map Location.id)

/-- The coordinate-dedupe invariant of §3: no two rows of `location` share a
`(lat, lon)` pair. -/
def DB.coordUnique (db : DB) : Prop :=
  db.locations.Pairwise (fun a b => a.lat ≠ b.lat ∨ a.lon ≠ b.lon)

/-- `fastapi.HTTPException`, as raised by the handlers. -/
structure HTTPException where
  status_code : Nat
  detail : String
deriving DecidableEq

/-- The `{"ok": True}` body returned by `delete_location`. -/
structure OkResult where
  ok : Bool
deriving DecidableEq

/-- What one request observes of the outside world: the values the
`weather_api` client calls in `main.py` return (the tests mock exactly these
two functions), and the current `datetime.utcnow()` tick. -/
structure Env where
  get_coordinates : String → Option GeoData
  get_current_weather : Rat → Rat → Option WeatherData
  now : Nat

namespace main

/-- The handler `search_cities` (GET `/api/search`).  The second component
records whether `weather_api.search_cities` was invoked, i.e. whether a
network call to the provider happened; on the guard path
(`if not q or len(q) < 3`) it is `false` and the handler returns `[]`. -/
def search_cities (provider_search : String → List CityMatch) (q : String) :
    List CityMatch × Bool :=
  if q.isEmpty ∨ q.length < 3 then ([], false)
  else (provider_search q, true)

/-- The `WeatherSnapshot(...)` constructor call in `sync_location_weather`:
the snapshot id is the next autoincrement key, `timestamp` defaults to
`datetime.utcnow()`. -/
def newSnapshot (db : DB) (location_id : Nat) (weather_data : WeatherData)
    (now : Nat) : WeatherSnapshot :=
  { id := db.nextSnapId
    location_id := location_id
    temp := weather_data.temp
    description := weather_data.description
    icon := weather_data.icon
    humidity := weather_data.humidity
    wind_speed := weather_data.wind_speed
    feels_like := weather_data.feels_like
    timestamp := now }

/-- The handler `sync_location_weather` (POST `/api/sync/{location_id}`).
404 on unknown id; 503 when `get_current_weather` returns `None` — both
before any write, so the state is returned unchanged.  On success it inserts
the snapshot and sets the location's `last_synced` in one commit. -/
def sync_location_weather (env : Env) (location_id : Nat) (db : DB) :
    Except HTTPException WeatherSnapshot × DB :=
  match db.getLocation location_id with
  | none => (.error { status_code := 404, detail := "Location not found" }, db)
  | some location =>
    match env.get_current_weather location.lat location.lon with
    | none => (.error { status_code := 503, detail := "Weather API unavailable" }, db)
    | some weather_data =>
      let snapshot := newSnapshot db location_id weather_data env.now
      (.ok snapshot,
       { locations := db.locations.map (fun l =>
           if l.id == location_id then { l with last_synced := some env.now } else l)
         snapshots := db.snapshots ++ [snapshot]
         nextLocId := db.nextLocId
         nextSnapId := db.nextSnapId + 1 })

/-- The `Location(...)` constructor call in `create_location`: favorite off,
no display-name override, `last_synced` null; the id is the next
autoincrement key assigned by the commit. -/
def newLocation (db : DB) (geo_data : GeoData) : Location :=
  { id := db.nextLocId
    name := geo_data.name
    country := geo_data.country
    lat := geo_data.lat
    lon := geo_data.lon
    display_name := none
    is_favorite := false
    last_synced := none }

/-- The handler `create_location` (POST `/api/locations`).  404 when
`get_coordinates` returns `None`; idempotent return of an existing row at the
same `(lat, lon)`; otherwise the new location is committed and
`sync_location_weather` runs in the same session.  A failure of the sync step
propagates as that failure while the committed location row stays (the state
returned with the error is the post-commit state).  On sync success the
returned object is the same session object the sync updated in place
(SQLAlchemy identity map), so its `last_synced` is set. -/
def create_location (env : Env) (city_name : String) (db : DB) :
    Except HTTPException Location × DB :=
  match env.get_coordinates city_name with
  | none => (.error { status_code := 404, detail := "City not found or API error" }, db)
  | some geo_data =>
    match db.findLocationByCoords geo_data.lat geo_data.lon with
    | some existing => (.ok existing, db)
    | none =>
      let location := newLocation db geo_data
      let db1 : DB := { db with
        locations := db.locations ++ [location]
        nextLocId := db.nextLocId + 1 }
      match sync_location_weather env location.id db1 with
      | (.error e, db2) => (.error e, db2)
      | (.ok _, db2) => (.ok { location with last_synced := some env.now }, db2)

/-- The handler `update_location` (PATCH `/api/locations/{location_id}`).
404 on unknown id; otherwise each of the two optional fields is written only
when supplied, and the updated row is committed. -/
def update_location (location_id : Nat) (is_favorite : Option Bool)
    (display_name : Option String) (db : DB) : Except HTTPException Location × DB :=
  match db.getLocation location_id with
  | none => (.error { status_code := 404, detail := "Location not found" }, db)
  | some location =>
    let l1 := match is_favorite with
      | some b => { location with is_favorite := b }
      | none => location
    let l2 := match display_name with
      | some d => { l1 with display_name := some d }
      | none => l1
    (.ok l2,
     { db with locations := db.locations.map (fun l => if l.id == location_id then l2 else l) })

/-- The handler `delete_location` (DELETE `/api/locations/{location_id}`).
404 on unknown id; otherwise every snapshot referencing the location is
deleted first, then the location, in one commit. -/
def delete_location (location_id : Nat) (db : DB) : Except HTTPException OkResult × DB :=
  match db.getLocation location_id with
  | none => (.error { status_code := 404, detail := "Location not found" }, db)
  | some _ =>
    (.ok { ok := true },
     { db with
       snapshots := db.snapshots.filter (fun s => !(s.location_id == location_id))
       locations := db.locations.filter (fun l => !(l.id == location_id)) })

end main

deriving instance DecidableEq for Except

instance (db : DB) : Decidable db.WF := by
  unfold DB.WF; exact inferInstance

instance (db : DB) : Decidable db.coordUnique := by
  unfold DB.coordUnique; exact inferInstance

/-- Snapshot immutability between two database states: any snapshot of the
new state that has the id of an old snapshot is that old row, unmodified. -/
def snapshotsImmutable (db db' : DB) : Prop :=
  ∀ s ∈ db.snapshots, ∀ t ∈ db'.snapshots, t.id = s.id → t = s

/-! Concrete fixtures used by the witness theorems. -/

/-- A resolved geocoding result for the witnesses. -/
def gW : GeoData := { lat := 51, lon := -1, name := "London", country := "GB" }

/-- A current-weather result for the witnesses. -/
def wW : WeatherData :=
  { temp := 15, description := "clear sky", icon := "01d",
    humidity := 50, wind_speed := 5, feels_like := 14 }

/-- Environment in which both provider calls succeed. -/
def envW : Env :=
  { get_coordinates := fun _ => some gW
    get_current_weather := fun _ _ => some wW
    now := 100 }

/-- Environment in which geocoding succeeds but the current-weather fetch
returns absent. -/
def envFailW : Env :=
  { get_coordinates := fun _ => some gW
    get_current_weather := fun _ _ => none
    now := 100 }

/-- The empty database (fresh SQLite file; autoincrement keys start at 1). -/
def db0 : DB := { locations := [], snapshots := [], nextLocId := 1, nextSnapId := 1 }

/-- The location row `create_location` inserts for `gW`, after its initial
sync set `last_synced`. -/
def locW : Location :=
  { id := 1, name := "London", country := "GB", lat := 51, lon := -1,
    display_name := none, is_favorite := false, last_synced := some 100 }

/-- The snapshot row the initial sync inserts for `locW`. -/
def snapW : WeatherSnapshot :=
  { id := 1, location_id := 1, temp := 15, description := "clear sky", icon := "01d",
    humidity := 50, wind_speed := 5, feels_like := 14, timestamp := 100 }

/-- The database after `create_location envW "London" db0`. -/
def db1W : DB := { locations := [locW], snapshots := [snapW], nextLocId := 2, nextSnapId := 2 }

/-- A geocoding item with a fully populated payload. -/
def giGood : GeoItem :=
  { name := some "A", country := some "GB", state := some "", lat := some 1, lon := some 2 }

/-- A geocoding item whose `name` key is missing (raises `KeyError`). -/
def giBad : GeoItem :=
  { name := none, country := some "GB", state := none, lat := some 1, lon := some 2 }

/-- A current-weather payload whose `"wind"` key is missing. -/
def cwBad : CurrentWeatherPayload :=
  { main := some { temp := some 15, humidity := some 50, feels_like := some 14 }
    weather := [{ description := some "clear sky", icon := some "01d" }]
    wind := none }

/-- A provider for the geocoding endpoint that honours the requested limit. -/
def providerCapped : GeoRequest → UpstreamResult (List GeoItem) :=
  fun req => .success ((List.replicate 10 giGood).take req.limit)

/-! ## Helper lemmas -/

theorem find?_append_none {α : Type} {p : α → Bool} {l1 l2 : List α}
    (h : l1.find? p = none) : (l1 ++ l2).find? p = l2.find? p := by
  simp [List.find?_append, h]

theorem find?_fresh_none (l : List Location) (n : Nat) (h : ∀ x ∈ l, x.id < n) :
    l.find? (fun x => x.id == n) = none := by
  rw [List.find?_eq_none]
  intro x hx
  simpa using Nat.ne_of_lt (h x hx)

theorem getLocation_insert_fresh (db : DB) (loc : Location) (hid : loc.id = db.nextLocId)
    (hfresh : ∀ l ∈ db.locations, l.id < db.nextLocId) :
    (db.locations ++ [loc]).find? (fun l => l.id == loc.id) = some loc := by
  have h0 : db.locations.find? (fun l => l.id == loc.id) = none := by
    simp only [hid]
    exact find?_fresh_none db.locations db.nextLocId hfresh
  rw [find?_append_none h0]
  simp

theorem map_update_id_fresh (l : List Location) (n : Nat) (g : Location → Location)
    (h : ∀ x ∈ l, x.id < n) :
    l.map (fun x => if x.id == n then g x else x) = l := by
  induction l with
  | nil => rfl
  | cons a t ih =>
    have ha : (a.id == n) = false := by
      simpa using Nat.ne_of_lt (h a (List.mem_cons_self a t))
    simp only [List.map_cons, ha, Bool.false_eq_true, if_false]
    rw [ih (fun x hx => h x (List.mem_cons_of_mem a hx))]

theorem pairwise_key_eq {α : Type} {f : α → Nat} {l : List α}
    (hp : l.Pairwise (fun a b => f a ≠ f b))
    {x y : α} (hx : x ∈ l) (hy : y ∈ l) (hfe : f x = f y) : x = y := by
  by_contra hne
  have hsym : Symmetric (fun a b : α => f a ≠ f b) := fun a b h e => h e.symm
  exact List.Pairwise.forall hsym hp hx hy hne hfe

theorem filter_length_le_one_of_pairwise {α : Type} {p : α → Bool} {r : α → α → Prop}
    {l : List α} (hp : l.Pairwise r)
    (hdisj : ∀ a b, p a = true → p b = true → ¬ r a b) :
    (l.filter p).length ≤ 1 := by
  induction l with
  | nil => simp
  | cons a t ih =>
    rcases List.pairwise_cons.mp hp with ⟨hat, ht⟩
    by_cases hpa : p a = true
    · have htnil : t.filter p = [] := by
        rw [List.filter_eq_nil_iff]
        intro b hb hpb
        exact hdisj a b hpa hpb (hat b hb)
      simp [List.filter_cons, hpa, htnil]
    · simp only [List.filter_cons, hpa, if_false]
      exact ih ht

theorem filter_map_invariant {α : Type} {p : α → Bool} {f : α → α} {l : List α}
    (h1 : ∀ x ∈ l, p x = true → f x = x) (h2 : ∀ x ∈ l, p x = false → p (f x) = false) :
    (l.map f).filter p = l.filter p := by
  induction l with
  | nil => rfl
  | cons a t ih =>
    have ih' := ih (fun x hx => h1 x (List.mem_cons_of_mem a hx))
      (fun x hx => h2 x (List.mem_cons_of_mem a hx))
    by_cases hpa : p a = true
    · have := h1 a (List.mem_cons_self a t) hpa
      simp [List.filter_cons, this, hpa, ih']
    · have hpa' : p a = false := by revert hpa; cases p a <;> simp
      have := h2 a (List.mem_cons_self a t) hpa'
      simp [List.filter_cons, this, hpa', ih']

/-- `sync_location_weather` on an id the fetch step cannot serve: 404, state
unchanged. -/
theorem sync_notFound (env : Env) (location_id : Nat) (db : DB)
    (hloc : db.getLocation location_id = none) :
    main.sync_location_weather env location_id db =
      (.error { status_code := 404, detail := "Location not found" }, db) := by
  unfold main.sync_location_weather
  rw [hloc]

/-- `sync_location_weather` when the provider returns absent current
weather: 503, state unchanged. -/
theorem sync_weather_none (env : Env) (location_id : Nat) (db : DB) (loc : Location)
    (hloc : db.getLocation location_id = some loc)
    (hw : env.get_current_weather loc.lat loc.lon = none) :
    main.sync_location_weather env location_id db =
      (.error { status_code := 503, detail := "Weather API unavailable" }, db) := by
  unfold main.sync_location_weather
  simp only [hloc, hw]

/-- `sync_location_weather` when the provider returns current weather:
snapshot inserted, `last_synced` set. -/
theorem sync_weather_some (env : Env) (location_id : Nat) (db : DB) (loc : Location)
    (w : WeatherData)
    (hloc : db.getLocation location_id = some loc)
    (hw : env.get_current_weather loc.lat loc.lon = some w) :
    main.sync_location_weather env location_id db =
      (.ok (main.newSnapshot db location_id w env.now),
       { locations := db.locations.map (fun l =>
           if l.id == location_id then { l with last_synced := some env.now } else l)
         snapshots := db.snapshots ++ [main.newSnapshot db location_id w env.now]
         nextLocId := db.nextLocId
         nextSnapId := db.nextSnapId + 1 }) := by
  unfold main.sync_location_weather
  simp only [hloc, hw]

/-- `create_location` when a location with the resolved coordinates already
exists: the existing row is returned and nothing changes. -/
theorem create_location_existing (env : Env) (c : String) (db : DB) (geo : GeoData)
    (existing : Location)
    (hg : env.get_coordinates c = some geo)
    (hfind : db.findLocationByCoords geo.lat geo.lon = some existing) :
    main.create_location env c db = (.ok existing, db) := by
  unfold main.create_location
  simp only [hg, hfind]

/-- `create_location` on fresh coordinates when the initial sync's weather
fetch returns absent: the new row is committed (with `last_synced` null) and
the 503 error propagates to the caller. -/
theorem create_location_new_err (env : Env) (c : String) (db : DB) (geo : GeoData)
    (hfresh : ∀ l ∈ db.locations, l.id < db.nextLocId)
    (hg : env.get_coordinates c = some geo)
    (hfind : db.findLocationByCoords geo.lat geo.lon = none)
    (hw : env.get_current_weather geo.lat geo.lon = none) :
    main.create_location env c db =
      (.error { status_code := 503, detail := "Weather API unavailable" },
       { db with locations := db.locations ++ [main.newLocation db geo]
                 nextLocId := db.nextLocId + 1 }) := by
  have hget : DB.getLocation
      { db with locations := db.locations ++ [main.newLocation db geo]
                nextLocId := db.nextLocId + 1 }
      (main.newLocation db geo).id = some (main.newLocation db geo) := by
    unfold DB.getLocation
    exact getLocation_insert_fresh db (main.newLocation db geo) rfl hfresh
  have hsync := sync_weather_none env (main.newLocation db geo).id
      { db with locations := db.locations ++ [main.newLocation db geo]
                nextLocId := db.nextLocId + 1 }
      (main.newLocation db geo) hget hw
  unfold main.create_location
  simp only [hg, hfind, hsync]

/-- `create_location` on fresh coordinates when the initial sync succeeds:
the new row is committed, the snapshot inserted, `last_synced` set, and the
synced location returned. -/
theorem create_location_new_ok (env : Env) (c : String) (db : DB) (geo : GeoData)
    (w : WeatherData)
    (hfresh : ∀ l ∈ db.locations, l.id < db.nextLocId)
    (hg : env.get_coordinates c = some geo)
    (hfind : db.findLocationByCoords geo.lat geo.lon = none)
    (hw : env.get_current_weather geo.lat geo.lon = some w) :
    main.create_location env c db =
      (.ok { main.newLocation db geo with last_synced := some env.now },
       { locations := db.locations ++
           [{ main.newLocation db geo with last_synced := some env.now }]
         snapshots := db.snapshots ++ [main.newSnapshot db db.nextLocId w env.now]
         nextLocId := db.nextLocId + 1
         nextSnapId := db.nextSnapId + 1 }) := by
  have hget : DB.getLocation
      { db with locations := db.locations ++ [main.newLocation db geo]
                nextLocId := db.nextLocId + 1 }
      (main.newLocation db geo).id = some (main.newLocation db geo) := by
    unfold DB.getLocation
    exact getLocation_insert_fresh db (main.newLocation db geo) rfl hfresh
  have hsync := sync_weather_some env (main.newLocation db geo).id
      { db with locations := db.locations ++ [main.newLocation db geo]
                nextLocId := db.nextLocId + 1 }
      (main.newLocation db geo) w hget hw
  unfold main.create_location
  simp only [hg, hfind, hsync]
  have hmap : (db.locations ++ [main.newLocation db geo]).map
      (fun l => if l.id == (main.newLocation db geo).id
                then { l with last_synced := some env.now } else l)
      = db.locations ++ [{ main.newLocation db geo with last_synced := some env.now }] := by
    rw [List.map_append,
        map_update_id_fresh db.locations (main.newLocation db geo).id _ hfresh]
    simp
  rw [hmap]
  rfl

/-! ## Claims -/

/-- C3: Sync-snapshot fails atomically on provider failure: for every
existing Location id, if the current-weather fetch returns absent,
`sync_location_weather` returns the 503 `HTTPException` ("Weather API
unavailable") and the database state is returned entirely unchanged — in
particular no new `WeatherSnapshot` row is created and the location's
`last_synced` field is untouched. -/
theorem claim_C3 (env : Env) (location_id : Nat) (db : DB) (loc : Location)
    (hloc : db.getLocation location_id = some loc)
    (hw : env.get_current_weather loc.lat loc.lon = none) :
    main.sync_location_weather env location_id db =
      (.error { status_code := 503, detail := "Weather API unavailable" }, db) :=
  sync_weather_none env location_id db loc hloc hw

/-- Witness for C3 at a concrete state: database holding `locW`, provider
returning absent current weather. -/
theorem claim_C3_witness :
    main.sync_location_weather envFailW 1 db1W =
      (.error { status_code := 503, detail := "Weather API unavailable" }, db1W) :=
  claim_C3 envFailW 1 db1W locW (by decide) rfl

/-- C6: for every query string shorter than 3 characters (including the
empty string), the Search-cities handler returns `[]` and does not invoke
the provider client (the `Bool` component of the embedded handler records
whether `weather_api.search_cities` — the network call — was reached). -/
theorem claim_C6 (provider_search : String → List CityMatch) (q : String)
    (h : q.length < 3) :
    main.search_cities provider_search q = ([], false) := by
  unfold main.search_cities
  rw [if_pos (Or.inr h)]

/-- Witness for C6 at the concrete query `"ab"`, with a provider that would
return a nonempty list if it were called. -/
theorem claim_C6_witness :
    main.search_cities (fun _ => [{ name := "Abidjan", country := "CI", state := "",
                                    lat := 5, lon := -4 }]) "ab" = ([], false) :=
  claim_C6 _ "ab" (by decide)

/-- C2: for every Add-location call where coordinate resolution succeeds,
the coordinates are fresh, and the current-weather fetch returns absent:
`create_location` surfaces the 503 `HTTPException` of the snapshot step
instead of the created location, yet the final state still contains the new
`Location` row (appended, with `last_synced` null) and no new snapshot. -/
theorem claim_C2 (env : Env) (c : String) (db : DB) (geo : GeoData)
    (hwf : db.WF)
    (hg : env.get_coordinates c = some geo)
    (hfind : db.findLocationByCoords geo.lat geo.lon = none)
    (hw : env.get_current_weather geo.lat geo.lon = none) :
    (main.create_location env c db).1 =
      .error { status_code := 503, detail := "Weather API unavailable" } ∧
    (main.create_location env c db).2.locations
      = db.locations ++ [main.newLocation db geo] ∧
    (main.newLocation db geo).last_synced = none ∧
    (main.create_location env c db).2.snapshots = db.snapshots := by
  obtain ⟨-, -, hfresh, -, -⟩ := hwf
  rw [create_location_new_err env c db geo hfresh hg hfind hw]
  exact ⟨rfl, rfl, rfl, rfl⟩

/-- Witness for C2 at the empty database with `envFailW` (geocoding resolves
to `gW`, weather fetch absent). -/
theorem claim_C2_witness :
    (main.create_location envFailW "London" db0).1 =
      .error { status_code := 503, detail := "Weather API unavailable" } ∧
    (main.create_location envFailW "London" db0).2.locations
      = db0.locations ++ [main.newLocation db0 gW] ∧
    (main.newLocation db0 gW).last_synced = none ∧
    (main.create_location envFailW "London" db0).2.snapshots = db0.snapshots :=
  claim_C2 envFailW "London" db0 gW (by decide) rfl rfl rfl

/-- C10: for every Add-location call that creates a new location (fresh
coordinates) and whose initial weather fetch succeeds: the returned location
has `last_synced` set (to the request time), and the final state contains
exactly one `WeatherSnapshot` row referencing the new location. -/
theorem claim_C10 (env : Env) (c : String) (db : DB) (geo : GeoData) (w : WeatherData)
    (hwf : db.WF)
    (hg : env.get_coordinates c = some geo)
    (hfind : db.findLocationByCoords geo.lat geo.lon = none)
    (hw : env.get_current_weather geo.lat geo.lon = some w) :
    ∃ loc : Location,
      (main.create_location env c db).1 = .ok loc ∧
      loc.last_synced = some env.now ∧
      loc.last_synced.isSome = true ∧
      ((main.create_location env c db).2.snapshots.filter
        (fun s => s.location_id == loc.id)).length = 1 := by
  obtain ⟨-, -, hfresh, -, hfk⟩ := hwf
  rw [create_location_new_ok env c db geo w hfresh hg hfind hw]
  refine ⟨{ main.newLocation db geo with last_synced := some env.now }, rfl, rfl, rfl, ?_⟩
  have hold : db.snapshots.filter
      (fun s => s.location_id == ({ main.newLocation db geo with
        last_synced := some env.now } : Location).id) = [] := by
    rw [List.filter_eq_nil_iff]
    intro s hs
    obtain ⟨l, hl, hid⟩ := List.mem_map.mp (hfk s hs)
    have : s.location_id < db.nextLocId := by
      rw [← hid] at *
      exact hfresh l hl
    simpa using Nat.ne_of_lt this
  rw [List.filter_append, hold]
  simp [main.newSnapshot, main.newLocation]

/-- Witness for C10 at the empty database with `envW`: the returned location
is `locW` (with `last_synced = some 100`) and exactly one snapshot references
it. -/
theorem claim_C10_witness :
    (main.create_location envW "London" db0).1 = .ok locW ∧
    locW.last_synced.isSome = true ∧
    ((main.create_location envW "London" db0).2.snapshots.filter
      (fun s => s.location_id == locW.id)).length = 1 := by
  obtain ⟨loc, h1, h2, h3, h4⟩ := claim_C10 envW "London" db0 gW wW (by decide) rfl rfl rfl
  have hcomp : (main.create_location envW "London" db0).1 = Except.ok locW := by decide
  rw [hcomp] at h1
  injection h1 with he
  subst he
  exact ⟨hcomp, h3, h4⟩

/-- C1: Add-location is idempotent with respect to coordinates.  If a first
Add-location call (for a city resolving to `g1`) returned a location, then a
second call whose city resolves to the same `(lat, lon)` returns the very
same location — same id — and leaves the state entirely unchanged (so in
particular no new `WeatherSnapshot` row is created), and afterwards exactly
one `Location` row with those coordinates exists. -/
theorem claim_C1 (env1 env2 : Env) (c1 c2 : String) (db : DB) (g1 g2 : GeoData)
    (loc1 : Location) (db1 : DB)
    (hwf : db.WF) (hcu : db.coordUnique)
    (hg1 : env1.get_coordinates c1 = some g1)
    (hg2 : env2.get_coordinates c2 = some g2)
    (hlat : g2.lat = g1.lat) (hlon : g2.lon = g1.lon)
    (h1 : main.create_location env1 c1 db = (.ok loc1, db1)) :
    main.create_location env2 c2 db1 = (.ok loc1, db1) ∧
    (db1.locations.filter (fun l => l.lat == g1.lat && l.lon == g1.lon)).length = 1 := by
  obtain ⟨hpw1, hpw2, hfresh, hsfresh, hfk⟩ := hwf
  rcases hfind : db.findLocationByCoords g1.lat g1.lon with _ | existing
  · rcases hw : env1.get_current_weather g1.lat g1.lon with _ | w
    · rw [create_location_new_err env1 c1 db g1 hfresh hg1 hfind hw] at h1
      simp at h1
    · rw [create_location_new_ok env1 c1 db g1 w hfresh hg1 hfind hw] at h1
      simp only [Prod.mk.injEq] at h1
      obtain ⟨hl, hd⟩ := h1
      injection hl with hl
      subst hl
      subst hd
      have hnone := List.find?_eq_none.mp hfind
      constructor
      · apply create_location_existing env2 c2 _ g2
          ({ main.newLocation db g1 with last_synced := some env1.now }) hg2
        unfold DB.findLocationByCoords
        rw [hlat, hlon]
        rw [find?_append_none hfind]
        simp [main.newLocation]
      · show ((db.locations ++
            [{ main.newLocation db g1 with last_synced := some env1.now }]).filter
            (fun l : Location => l.lat == g1.lat && l.lon == g1.lon)).length = 1
        rw [List.filter_append]
        rw [List.filter_eq_nil_iff.mpr hnone]
        simp [main.newLocation]
  · rw [create_location_existing env1 c1 db g1 existing hg1 hfind] at h1
    simp only [Prod.mk.injEq] at h1
    obtain ⟨hl, hd⟩ := h1
    injection hl with hl
    subst hl
    subst hd
    constructor
    · apply create_location_existing env2 c2 db g2 existing hg2
      unfold DB.findLocationByCoords at hfind ⊢
      rw [hlat, hlon]
      exact hfind
    · have hmem := List.mem_of_find?_eq_some hfind
      have hp := List.find?_some hfind
      have hge : 0 < (db.locations.filter
          (fun l => l.lat == g1.lat && l.lon == g1.lon)).length :=
        List.length_pos.mpr (List.ne_nil_of_mem (List.mem_filter.mpr ⟨hmem, hp⟩))
      have hle : (db.locations.filter
          (fun l => l.lat == g1.lat && l.lon == g1.lon)).length ≤ 1 := by
        apply filter_length_le_one_of_pairwise hcu
        intro a b hpa hpb hr
        simp only [Bool.and_eq_true, beq_iff_eq] at hpa hpb
        rcases hr with hr | hr
        · exact hr (hpa.1.trans hpb.1.symm)
        · exact hr (hpa.2.trans hpb.2.symm)
      omega

/-- Witness for C1: adding London twice to the empty database returns `locW`
both times and leaves exactly one row at its coordinates. -/
theorem claim_C1_witness :
    main.create_location envW "London" db1W = (.ok locW, db1W) ∧
    (db1W.locations.filter (fun l => l.lat == gW.lat && l.lon == gW.lon)).length = 1 :=
  claim_C1 envW envW "London" "London" db0 gW gW locW db1W
    (by decide) (by decide) rfl rfl rfl rfl (by decide)

/-- C7: Delete-location.  On an unknown id: 404 and the state is unchanged.
On an existing id: the handler returns `{ok := true}`; afterwards no snapshot
referencing the location remains, snapshots of other locations are kept, the
location itself is gone, any of the deleted snapshots' ids now fetches as
absent, and every other location row survives. -/
theorem claim_C7 (location_id : Nat) (db : DB) (hwf : db.WF) :
    (db.getLocation location_id = none →
      main.delete_location location_id db =
        (.error { status_code := 404, detail := "Location not found" }, db)) ∧
    ∀ loc, db.getLocation location_id = some loc →
      (main.delete_location location_id db).1 = .ok { ok := true } ∧
      (∀ s ∈ (main.delete_location location_id db).2.snapshots,
        s.location_id ≠ location_id) ∧
      (∀ s ∈ db.snapshots, s.location_id ≠ location_id →
        s ∈ (main.delete_location location_id db).2.snapshots) ∧
      (main.delete_location location_id db).2.getLocation location_id = none ∧
      (∀ s ∈ db.snapshots, s.location_id = location_id →
        (main.delete_location location_id db).2.getSnapshot s.id = none) ∧
      (∀ l ∈ db.locations, l.id ≠ location_id →
        l ∈ (main.delete_location location_id db).2.locations) := by
  obtain ⟨hpw1, hpw2, hfresh, hsfresh, hfk⟩ := hwf
  constructor
  · intro h
    unfold main.delete_location
    simp only [h]
  · intro loc hloc
    have hdel : main.delete_location location_id db =
        (.ok { ok := true },
         { db with
           snapshots := db.snapshots.filter (fun s => !(s.location_id == location_id))
           locations := db.locations.filter (fun l => !(l.id == location_id)) }) := by
      unfold main.delete_location
      simp only [hloc]
    rw [hdel]
    refine ⟨rfl, ?_, ?_, ?_, ?_, ?_⟩
    · intro s hs
      have := (List.mem_filter.mp hs).2
      simpa using this
    · intro s hs hne
      exact List.mem_filter.mpr ⟨hs, by simpa using hne⟩
    · unfold DB.getLocation
      rw [List.find?_eq_none]
      intro x hx
      have := (List.mem_filter.mp hx).2
      simpa using this
    · intro s hs hsid
      unfold DB.getSnapshot
      rw [List.find?_eq_none]
      intro x hx hxid
      obtain ⟨hxmem, hxne⟩ := List.mem_filter.mp hx
      have hxeq : x = s := by
        apply pairwise_key_eq hpw2 hxmem hs
        simpa using hxid
      rw [hxeq] at hxne
      rw [hsid] at hxne
      simp at hxne
    · intro l hl hne
      exact List.mem_filter.mpr ⟨hl, by simpa using hne⟩

/-- Witness for C7 on `db1W`: deleting location 1 succeeds and its snapshot
(id 1) fetches as absent afterwards, while an unknown id (7) yields 404. -/
theorem claim_C7_witness :
    (main.delete_location 1 db1W).1 = .ok { ok := true } ∧
    (main.delete_location 1 db1W).2.getSnapshot 1 = none ∧
    main.delete_location 7 db1W =
      (.error { status_code := 404, detail := "Location not found" }, db1W) := by
  have h := (claim_C7 1 db1W (by decide)).2 locW (by decide)
  have h404 := (claim_C7 7 db1W (by decide)).1 (by decide)
  exact ⟨h.1, h.2.2.2.2.1 snapW (by decide) rfl, h404⟩

/-- C9: Update-location.  On an unknown id: 404, state unchanged.  On an
existing id: the returned row keeps `id`, `name`, `country`, `lat`, `lon`
and `last_synced`; its favorite flag is the supplied value when one is given
and unchanged otherwise; its display-name override likewise; the snapshot
table is untouched and every location row other than the target one is
unchanged (same rows, same order). -/
theorem claim_C9 (location_id : Nat) (fav : Option Bool) (dn : Option String)
    (db : DB) :
    (db.getLocation location_id = none →
      main.update_location location_id fav dn db =
        (.error { status_code := 404, detail := "Location not found" }, db)) ∧
    ∀ loc, db.getLocation location_id = some loc →
      (∀ loc', (main.update_location location_id fav dn db).1 = .ok loc' →
        loc'.id = loc.id ∧ loc'.name = loc.name ∧ loc'.country = loc.country ∧
        loc'.lat = loc.lat ∧ loc'.lon = loc.lon ∧
        loc'.last_synced = loc.last_synced ∧
        loc'.is_favorite = fav.getD loc.is_favorite ∧
        loc'.display_name = dn.or loc.display_name) ∧
      (main.update_location location_id fav dn db).2.snapshots = db.snapshots ∧
      (main.update_location location_id fav dn db).2.locations.filter
          (fun l => !(l.id == location_id))
        = db.locations.filter (fun l => !(l.id == location_id)) := by
  constructor
  · intro h
    unfold main.update_location
    simp only [h]
  · intro loc hloc
    have hid : loc.id = location_id := by
      have := List.find?_some hloc
      simpa using this
    have hupd : main.update_location location_id fav dn db =
        (.ok (match dn with
              | some d => { (match fav with
                            | some b => { loc with is_favorite := b }
                            | none => loc) with display_name := some d }
              | none => match fav with
                        | some b => { loc with is_favorite := b }
                        | none => loc),
         { db with locations := db.locations.map (fun l =>
             if l.id == location_id
             then (match dn with
                   | some d => { (match fav with
                                 | some b => { loc with is_favorite := b }
                                 | none => loc) with display_name := some d }
                   | none => match fav with
                             | some b => { loc with is_favorite := b }
                             | none => loc)
             else l) }) := by
      unfold main.update_location
      simp only [hloc]
    rw [hupd]
    refine ⟨?_, rfl, ?_⟩
    · intro loc' hloc'
      injection hloc' with he
      subst he
      cases fav <;> cases dn <;> simp
    · apply filter_map_invariant
      · intro x _ hpx
        have hx : (x.id == location_id) = false := by
          revert hpx; cases x.id == location_id <;> simp
        rw [if_neg (by simp [hx])]
      · intro x _ hpx
        have hx : (x.id == location_id) = true := by
          revert hpx; cases x.id == location_id <;> simp
        rw [if_pos hx]
        cases fav <;> cases dn <;> simp [hid]

/-- Witness for C9 on `db1W`: updating location 1's favorite flag (only)
keeps every other field, and an unknown id (7) yields 404. -/
theorem claim_C9_witness :
    ((main.update_location 1 (some true) none db1W).1 = .ok
      { locW with is_favorite := true } →
      ({ locW with is_favorite := true } : Location).last_synced = locW.last_synced ∧
      ({ locW with is_favorite := true } : Location).is_favorite
        = (some true).getD locW.is_favorite) ∧
    (main.update_location 1 (some true) none db1W).2.snapshots = db1W.snapshots ∧
    main.update_location 7 (some true) none db1W =
      (.error { status_code := 404, detail := "Location not found" }, db1W) := by
  have h := (claim_C9 1 (some true) none db1W).2 locW (by decide)
  have h404 := (claim_C9 7 (some true) none db1W).1 (by decide)
  refine ⟨?_, h.2.1, h404⟩
  intro hloc'
  have := h.1 _ hloc'
  exact ⟨this.2.2.2.2.2.1, this.2.2.2.2.2.2.1⟩

/-- No-modification within an unchanged snapshot table. -/
theorem immut_self (db : DB)
    (hpw : db.snapshots.Pairwise (fun a b => a.id ≠ b.id)) :
    ∀ s ∈ db.snapshots, ∀ t ∈ db.snapshots, t.id = s.id → t = s :=
  fun s hs t ht h => pairwise_key_eq hpw ht hs h

/-- No-modification when one fresh-id snapshot is appended. -/
theorem immut_append (db : DB)
    (hpw : db.snapshots.Pairwise (fun a b => a.id ≠ b.id))
    (hsfresh : ∀ s ∈ db.snapshots, s.id < db.nextSnapId)
    (snap : WeatherSnapshot) (hsnap : snap.id = db.nextSnapId) :
    ∀ s ∈ db.snapshots, ∀ t ∈ db.snapshots ++ [snap], t.id = s.id → t = s := by
  intro s hs t ht hid
  rcases List.mem_append.mp ht with h | h
  · exact pairwise_key_eq hpw h hs hid
  · simp only [List.mem_singleton] at h
    subst h
    have h1 := hsfresh s hs
    rw [hsnap] at hid
    omega

/-- No-modification when snapshots are only filtered out. -/
theorem immut_filter (db : DB)
    (hpw : db.snapshots.Pairwise (fun a b => a.id ≠ b.id))
    (p : WeatherSnapshot → Bool) :
    ∀ s ∈ db.snapshots, ∀ t ∈ db.snapshots.filter p, t.id = s.id → t = s :=
  fun s hs t ht h => pairwise_key_eq hpw (List.mem_filter.mp ht).1 hs h

/-- State frame of `update_location`: the snapshot table is never touched. -/
theorem update_state_snapshots (i : Nat) (fav : Option Bool) (dn : Option String)
    (db : DB) : (main.update_location i fav dn db).2.snapshots = db.snapshots := by
  unfold main.update_location
  cases h : db.getLocation i <;> rfl

/-- State of `create_location` when geocoding fails: unchanged. -/
theorem create_location_resolve_fail (env : Env) (c : String) (db : DB)
    (hg : env.get_coordinates c = none) :
    main.create_location env c db =
      (.error { status_code := 404, detail := "City not found or API error" }, db) := by
  unfold main.create_location
  simp only [hg]

/-- State of `delete_location` on a known id. -/
theorem delete_state_known (i : Nat) (db : DB) (loc : Location)
    (h : db.getLocation i = some loc) :
    (main.delete_location i db).2 = { db with
      snapshots := db.snapshots.filter (fun s => !(s.location_id == i))
      locations := db.locations.filter (fun l => !(l.id == i)) } := by
  unfold main.delete_location
  simp only [h]

/-- State of `delete_location` on an unknown id: unchanged. -/
theorem delete_state_unknown (i : Nat) (db : DB)
    (h : db.getLocation i = none) :
    (main.delete_location i db).2 = db := by
  unfold main.delete_location
  simp only [h]

/-- C8: WeatherSnapshot rows are immutable.  For each mutating operation of
the system (`create_location`, `update_location`, `sync_location_weather`,
`delete_location`): any snapshot of the resulting state carrying the id of a
pre-existing snapshot is that row, field-for-field unchanged; the first three
operations preserve every pre-existing snapshot (they only insert), and
`delete_location` removes a snapshot only when it references the deleted
location. -/
theorem claim_C8 (env : Env) (c : String) (idU idD idS : Nat)
    (fav : Option Bool) (dn : Option String) (db : DB) (hwf : db.WF) :
    (snapshotsImmutable db (main.create_location env c db).2 ∧
      ∀ s ∈ db.snapshots, s ∈ (main.create_location env c db).2.snapshots) ∧
    (snapshotsImmutable db (main.update_location idU fav dn db).2 ∧
      ∀ s ∈ db.snapshots, s ∈ (main.update_location idU fav dn db).2.snapshots) ∧
    (snapshotsImmutable db (main.sync_location_weather env idS db).2 ∧
      ∀ s ∈ db.snapshots, s ∈ (main.sync_location_weather env idS db).2.snapshots) ∧
    (snapshotsImmutable db (main.delete_location idD db).2 ∧
      ∀ s ∈ db.snapshots,
        s ∈ (main.delete_location idD db).2.snapshots ∨ s.location_id = idD) := by
  obtain ⟨hpw1, hpw2, hfresh, hsfresh, hfk⟩ := hwf
  refine ⟨?_, ?_, ?_, ?_⟩
  · -- create_location
    rcases hg : env.get_coordinates c with _ | geo
    · rw [create_location_resolve_fail env c db hg]
      exact ⟨immut_self db hpw2, fun s hs => hs⟩
    · rcases hfind : db.findLocationByCoords geo.lat geo.lon with _ | existing
      · rcases hw : env.get_current_weather geo.lat geo.lon with _ | w
        · rw [create_location_new_err env c db geo hfresh hg hfind hw]
          exact ⟨immut_self db hpw2, fun s hs => hs⟩
        · rw [create_location_new_ok env c db geo w hfresh hg hfind hw]
          exact ⟨immut_append db hpw2 hsfresh _ rfl,
                 fun s hs => List.mem_append_left _ hs⟩
      · rw [create_location_existing env c db geo existing hg hfind]
        exact ⟨immut_self db hpw2, fun s hs => hs⟩
  · -- update_location
    constructor
    · intro s hs t ht hid
      rw [update_state_snapshots idU fav dn db] at ht
      exact pairwise_key_eq hpw2 ht hs hid
    · intro s hs
      rw [update_state_snapshots idU fav dn db]
      exact hs
  · -- sync_location_weather
    rcases hloc : db.getLocation idS with _ | loc
    · rw [sync_notFound env idS db hloc]
      exact ⟨immut_self db hpw2, fun s hs => hs⟩
    · rcases hw : env.get_current_weather loc.lat loc.lon with _ | w
      · rw [sync_weather_none env idS db loc hloc hw]
        exact ⟨immut_self db hpw2, fun s hs => hs⟩
      · rw [sync_weather_some env idS db loc w hloc hw]
        exact ⟨immut_append db hpw2 hsfresh _ rfl,
               fun s hs => List.mem_append_left _ hs⟩
  · -- delete_location
    rcases hloc : db.getLocation idD with _ | loc
    · rw [delete_state_unknown idD db hloc]
      exact ⟨immut_self db hpw2, fun s hs => Or.inl hs⟩
    · rw [delete_state_known idD db loc hloc]
      refine ⟨immut_filter db hpw2 _, ?_⟩
      intro s hs
      by_cases hsl : s.location_id = idD
      · exact Or.inr hsl
      · exact Or.inl (List.mem_filter.mpr ⟨hs, by simpa using hsl⟩)

/-- Witness for C8 on `db1W`: the one stored snapshot survives an update and
a (successful) sync unchanged, and survives deleting a different location. -/
theorem claim_C8_witness :
    snapW ∈ (main.update_location 1 (some true) none db1W).2.snapshots ∧
    snapW ∈ (main.sync_location_weather envW 1 db1W).2.snapshots ∧
    (snapW ∈ (main.delete_location 9 db1W).2.snapshots ∨ snapW.location_id = 9) := by
  have h := claim_C8 envW "London" 1 9 1 (some true) none db1W (by decide)
  exact ⟨h.2.1.2 snapW (by decide), h.2.2.1.2 snapW (by decide), h.2.2.2.2 snapW (by decide)⟩

/-- The geocoding parse is all-or-nothing: a successful parse covers every
item of the upstream array (no partially populated result). -/
theorem parseCityMatches_length (data : List GeoItem) (r : List CityMatch)
    (h : weather_api.parseCityMatches data = some r) : r.length = data.length := by
  induction data generalizing r with
  | nil =>
    unfold weather_api.parseCityMatches at h
    injection h with h
    subst h
    rfl
  | cons item rest ih =>
    unfold weather_api.parseCityMatches at h
    cases hc : weather_api.parseCityMatch item <;> rw [hc] at h
    · exact absurd h (by simp)
    · cases hr : weather_api.parseCityMatches rest <;> rw [hr] at h
      · exact absurd h (by simp)
      · injection h with h
        subst h
        simp [ih _ hr]

/-- The forecast parse is all-or-nothing: a successful parse covers every
item of the upstream `"list"` array. -/
theorem parseForecastItems_length (items : List ForecastItemPayload)
    (r : List ForecastEntry)
    (h : weather_api.parseForecastItems items = some r) : r.length = items.length := by
  induction items generalizing r with
  | nil =>
    unfold weather_api.parseForecastItems at h
    injection h with h
    subst h
    rfl
  | cons it rest ih =>
    unfold weather_api.parseForecastItems at h
    cases hc : weather_api.parseForecastItem it <;> rw [hc] at h
    · exact absurd h (by simp)
    · cases hr : weather_api.parseForecastItems rest <;> rw [hr] at h
      · exact absurd h (by simp)
      · injection h with h
        subst h
        simp [ih _ hr]

/-- C4: every provider-client operation degrades every upstream failure to an
empty or absent result and never returns a partially populated one.  First
block: transport-level failure (network error, non-success status,
undecodable body) maps to `[]`/`none`.  Second block: a malformed or partial
payload maps to `[]`/`none`.  Third block: any non-empty/present result comes
from a complete all-or-nothing parse of a successful response (for the list
operations, covering the whole upstream array).  The operations are total
Lean functions: no exception propagates to the caller. -/
theorem claim_C4 :
    (weather_api.search_cities_resp .failure = [] ∧
     weather_api.get_coordinates_resp .failure = none ∧
     weather_api.get_current_weather_resp .failure = none ∧
     weather_api.get_forecast_resp .failure = []) ∧
    ((∀ data : List GeoItem, weather_api.parseCityMatches data = none →
        weather_api.search_cities_resp (.success data) = []) ∧
     (∀ data : List GeoItem, weather_api.parseCoordinates data = none →
        weather_api.get_coordinates_resp (.success data) = none) ∧
     (∀ p : CurrentWeatherPayload, weather_api.parseCurrentWeather p = none →
        weather_api.get_current_weather_resp (.success p) = none) ∧
     (∀ p : ForecastPayload,
        (p.list = none ∨ ∃ items, p.list = some items ∧
          weather_api.parseForecastItems items = none) →
        weather_api.get_forecast_resp (.success p) = [])) ∧
    ((∀ resp r, weather_api.search_cities_resp resp = r → r = [] ∨
        ∃ data, resp = .success data ∧ weather_api.parseCityMatches data = some r ∧
          r.length = data.length) ∧
     (∀ resp r, weather_api.get_forecast_resp resp = r → r = [] ∨
        ∃ p items, resp = .success p ∧ p.list = some items ∧
          weather_api.parseForecastItems items = some r ∧ r.length = items.length) ∧
     (∀ resp d, weather_api.get_coordinates_resp resp = some d →
        ∃ data, resp = .success data ∧ weather_api.parseCoordinates data = some d) ∧
     (∀ resp w, weather_api.get_current_weather_resp resp = some w →
        ∃ p, resp = .success p ∧ weather_api.parseCurrentWeather p = some w)) := by
  refine ⟨⟨rfl, rfl, rfl, rfl⟩, ⟨?_, ?_, ?_, ?_⟩, ⟨?_, ?_, ?_, ?_⟩⟩
  · intro data h
    unfold weather_api.search_cities_resp
    simp only [h]
  · intro data h
    unfold weather_api.get_coordinates_resp
    exact h
  · intro p h
    unfold weather_api.get_current_weather_resp
    exact h
  · intro p h
    unfold weather_api.get_forecast_resp
    rcases h with h | ⟨items, h1, h2⟩
    · simp only [h]
    · simp only [h1, h2]
  · intro resp r h
    cases resp with
    | failure => left; exact h.symm
    | success data =>
      have h' : (match weather_api.parseCityMatches data with
                 | some results => results
                 | none => ([] : List CityMatch)) = r := h
      cases hp : weather_api.parseCityMatches data <;> rw [hp] at h'
      · left; exact h'.symm
      · right
        subst h'
        exact ⟨data, rfl, hp, parseCityMatches_length _ _ hp⟩
  · intro resp r h
    cases resp with
    | failure => left; exact h.symm
    | success p =>
      have h' : (match p.list with
                 | none => ([] : List ForecastEntry)
                 | some items =>
                   match weather_api.parseForecastItems items with
                   | some entries => entries
                   | none => []) = r := h
      cases hl : p.list <;> rw [hl] at h'
      · left; exact h'.symm
      · rename_i items
        have h2 : (match weather_api.parseForecastItems items with
                   | some entries => entries
                   | none => ([] : List ForecastEntry)) = r := h'
        cases hp : weather_api.parseForecastItems items <;> rw [hp] at h2
        · left; exact h2.symm
        · right
          subst h2
          exact ⟨p, items, rfl, hl, hp, parseForecastItems_length _ _ hp⟩
  · intro resp d h
    cases resp with
    | failure => exact absurd h (by simp [weather_api.get_coordinates_resp])
    | success data => exact ⟨data, rfl, h⟩
  · intro resp w h
    cases resp with
    | failure => exact absurd h (by simp [weather_api.get_current_weather_resp])
    | success p => exact ⟨p, rfl, h⟩

/-- Witness for C4 at concrete malformed payloads: a geocoding item missing
its `name`, a current-weather payload missing its `"wind"` object, and a
forecast payload missing its `"list"` key all degrade to `[]`/`none`. -/
theorem claim_C4_witness :
    weather_api.search_cities_resp (.success [giBad]) = [] ∧
    weather_api.get_current_weather_resp (.success cwBad) = none ∧
    weather_api.get_forecast_resp (.success { list := none }) = [] :=
  ⟨claim_C4.2.1.1 [giBad] (by decide),
   claim_C4.2.1.2.2.1 cwBad (by decide),
   claim_C4.2.1.2.2.2 { list := none } (Or.inl rfl)⟩

/-- C5 (amended): `search_cities` requests at most 5 matches from the
provider (`limit := 5` in the request it builds) and performs no client-side
truncation; whenever the provider honours the requested limit, the result
has at most 5 entries (each of shape `{name, country, state, lat, lon}` by
the type `CityMatch` of the result). -/
theorem claim_C5_amended (provider : GeoRequest → UpstreamResult (List GeoItem))
    (q : String)
    (hcap : ∀ req data, provider req = .success data → data.length ≤ req.limit) :
    (weather_api.search_cities provider q).length ≤ 5 := by
  unfold weather_api.search_cities weather_api.search_cities_resp
  cases hr : provider { q := q, limit := 5 } with
  | failure => simp
  | success data =>
    have hlen := hcap _ _ hr
    show (match weather_api.parseCityMatches data with
          | some results => results
          | none => ([] : List CityMatch)).length ≤ 5
    cases hp : weather_api.parseCityMatches data with
    | none => simp
    | some r =>
      show r.length ≤ 5
      rw [parseCityMatches_length data r hp]
      exact hlen
/-- Counterexample for C5 as stated ("for every provider response ... at most
5"): on a response of 6 fully populated items the code returns all 6 —
the cap comes from the `limit = 5` request parameter, which the code trusts
the provider to honour; there is no client-side truncation. -/
theorem claim_C5_counterexample :
    5 < (weather_api.search_cities
      (fun _ => .success [giGood, giGood, giGood, giGood, giGood, giGood])
      "London").length := by
  decide

/-- Witness for C5 (amended) with a provider honouring the requested limit:
out of 10 available items, exactly the requested 5 come back. -/
theorem claim_C5_witness :
    (weather_api.search_cities providerCapped "London").length ≤ 5 := by
  apply claim_C5_amended providerCapped "London"
  intro req data h
  have hd : ((List.replicate 10 giGood).take req.limit) = data := by
    injection h
  rw [← hd]
  simp [List.length_take]
